import Mathlib

/-!
Shallow embedding of the Next.js + ButterCMS blog scaffold: the Express route
table in `server.js`, the per-page `getInitialProps` resolvers and `render`
functions under `pages/`, the feed proxy routes and the webhook receiver.

Rendered JSX output is modelled by the `Html` tree below; `Html.raw` stands
for content inserted via `dangerouslySetInnerHTML` (not entity-escaped),
while `Html.text` stands for ordinary escaped text children.  The external
ButterCMS client is a record of fallible functions (`Except ApiError`), and
each resolver additionally returns the list of client calls it performed, so
that call counts and call arguments are provable.
-/

/-- Rendered virtual-DOM tree.  `text` is an escaped text child, `raw` is
content inserted with `dangerouslySetInnerHTML`, `elem` a JSX element with
its attribute list and children (the `next/link` component appears as an
element with tag `"Link"`, `next/head` as tag `"Head"`). -/
inductive Html where
  | text (s : String)
  | raw (s : String)
  | elem (tag : String) (attrs : List (String × String)) (children : List Html)

mutual

/-- Does some node of the tree satisfy `p`? -/
def Html.any (p : Html → Bool) : Html → Bool
  | .text s => p (.text s)
  | .raw s => p (.raw s)
  | .elem t a c => p (.elem t a c) || Html.anyList p c

/-- Does some node of some tree in the list satisfy `p`? -/
def Html.anyList (p : Html → Bool) : List Html → Bool
  | [] => false
  | h :: hs => Html.any p h || Html.anyList p hs

end

mutual

/-- Number of `<a>` anchor elements in the tree. -/
def Html.countAnchors : Html → Nat
  | .text _ => 0
  | .raw _ => 0
  | .elem t _ c => (if t = "a" then 1 else 0) + Html.countAnchorsList c

/-- Number of `<a>` anchor elements in all trees of the list. -/
def Html.countAnchorsList : List Html → Nat
  | [] => 0
  | h :: hs => Html.countAnchors h + Html.countAnchorsList hs

end

/-- Is this list of children the single `<a>txt</a>` body of a `Link`? -/
def isLinkBody (txt : String) (children : List Html) : Bool :=
  match children with
  | [Html.elem "a" [] [Html.text s]] => s == txt
  | _ => false

/-- Is this node a `next/link` `<Link href=..><a>txt</a></Link>` with the given
link text (any href)? -/
def isLinkTo (txt : String) (h : Html) : Bool :=
  match h with
  | .elem tag _ children => tag == "Link" && isLinkBody txt children
  | _ => false

/-- Is this node a `next/link` `<Link href=href><a>txt</a></Link>` with the
given href and link text? -/
def isLinkHrefTo (href txt : String) (h : Html) : Bool :=
  match h with
  | .elem tag attrs children =>
      tag == "Link" && attrs == [("href", href)] && isLinkBody txt children
  | _ => false

/-- Is this node a plain `<a href=href>txt</a>` anchor? -/
def isAnchor (href txt : String) (h : Html) : Bool :=
  match h with
  | .elem tag attrs children =>
      tag == "a" && attrs == [("href", href)] &&
        (match children with
         | [Html.text s] => s == txt
         | _ => false)
  | _ => false

/-- Is this node an `<h1>` whose single child is the given (escaped) text? -/
def isH1Text (txt : String) (h : Html) : Bool :=
  match h with
  | .elem tag _ children =>
      tag == "h1" &&
        (match children with
         | [Html.text s] => s == txt
         | _ => false)
  | _ => false

/-- Is this node a `raw` (dangerouslySetInnerHTML) node with the given
payload? -/
def isRawHtml (s : String) (h : Html) : Bool :=
  match h with
  | .raw t => t == s
  | _ => false

/-! Data model: ButterCMS payloads -/

/-- The value of the `page` parameter sent to the API: either the number `1`
(the JS default) or the string taken from the query string. -/
inductive PageParam where
  | num (n : Nat)
  | str (s : String)
deriving DecidableEq

/-- Parameters of a list call: `{page: ..., page_size: ...}`. -/
structure ListParams where
  page : PageParam
  page_size : Nat
deriving DecidableEq

/-- Summary of a post as it appears in list responses (the fields the list
templates read). -/
structure PostSummary where
  slug : String
  title : String

/-- A full post as returned by `post.retrieve` (the fields `pages/post.js`
reads). -/
structure Post where
  slug : String
  title : String
  body : String
  seo_title : String
  meta_description : String
  featured_image : String

/-- Pagination metadata of a list response.  `next_page` / `previous_page`
are `null` or a page number in the JSON; `none` models null/absent. -/
structure PageMeta where
  count : Nat
  next_page : Option Nat
  previous_page : Option Nat

/-- Payload `resp.data` of `butter.post.list`: pagination metadata plus the
page of posts. -/
structure IndexData where
  meta : PageMeta
  data : List PostSummary

/-- A category as it appears in `category.list` responses. -/
structure Category where
  slug : String
  name : String

/-- The field `recent_posts` of a retrieved category, as a JS value: it can
be absent (`undefined`), present but not an array, or an array. -/
inductive JsArr (α : Type) where
  | undefined
  | notArray
  | array (xs : List α)

/-- A retrieved category (the fields `pages/category.js` reads). -/
structure CategoryObj where
  name : String
  recent_posts : JsArr PostSummary

/-- The custom fields of a "product" page. -/
structure ProductFields where
  title : String
  description : String
  price : String

/-- A "product" custom page as returned by `page.list` / `page.retrieve`. -/
structure Product where
  slug : String
  fields : ProductFields

/-- A client-library response: the library resolves with `{data: ...}` and
the page resolvers return `resp.data`. -/
structure ApiResp (α : Type) where
  data : α

/-- Reasons the external API call can reject. -/
inductive ApiError where
  | networkError
  | notFound
  | authError
deriving DecidableEq

/-- Errors a `render()` can throw at runtime (e.g. calling `.map` on
`undefined`). -/
inductive JsError where
  | typeError
deriving DecidableEq

/-! The ButterCMS client and call traces -/

/-- One call to the ButterCMS client, with the arguments it was given.
`none` for an `Option` argument models a JS `undefined` / omitted
argument. -/
inductive ApiCall where
  | postList (params : ListParams)
  | postRetrieve (slug : Option String)
  | categoryList (params : Option ListParams)
  | categoryRetrieve (slug : Option String) (inc : Option String)
  | pageRetrieve (pageType : String) (slug : Option String)
  | pageList (pageType : String) (params : Option ListParams)
  | feedRetrieve (kind : String)
deriving DecidableEq

/-- The external ButterCMS client: each method either rejects with an
`ApiError` or resolves with an `ApiResp`. -/
structure Client where
  postList : ListParams → Except ApiError (ApiResp IndexData)
  postRetrieve : Option String → Except ApiError (ApiResp (ApiResp Post))
  categoryList : Option ListParams → Except ApiError (ApiResp (ApiResp (List Category)))
  categoryRetrieve : Option String → Option String → Except ApiError (ApiResp (ApiResp CategoryObj))
  pageRetrieve : String → Option String → Except ApiError (ApiResp (ApiResp Product))
  pageList : String → Option ListParams → Except ApiError (ApiResp (ApiResp (List Product)))
  feedRetrieve : String → Except ApiError (ApiResp (ApiResp String))

/-! Page resolvers (`getInitialProps`).

Each resolver takes the query object Next.js hands it, performs its client
call, and returns `resp.data` on resolution or propagates the rejection
unchanged (none of the resolvers has a try/catch).  The second component is
the trace of client calls made during the invocation. -/

/-- The `query` object: `slug` from the route parameters, `page` from the
URL query string (query-string values are strings in Express/Next). -/
structure Query where
  slug : Option String := none
  page : Option String := none

/-- Evaluation of `let page = query.page || 1`: JS `||` falls back to the number `1` when
`query.page` is `undefined` or the empty string (both falsy); otherwise the
query-string value is used as-is. -/
def pageOrDefault (q : Option String) : PageParam :=
  match q with
  | none => .num 1
  | some s => if s = "" then .num 1 else .str s

/-- Resolver of `pages/index.js` (`getInitialProps`):
`butter.post.list({page: page, page_size: 10})`, returning `resp.data`. -/
def index_getInitialProps (c : Client) (q : Query) :
    Except ApiError IndexData × List ApiCall :=
  let params : ListParams := { page := pageOrDefault q.page, page_size := 10 }
  ((c.postList params).map (fun resp => resp.data), [.postList params])

/-- Resolver of `pages/post.js` (`getInitialProps`): `butter.post.retrieve(query.slug)`,
returning `resp.data`. -/
def post_getInitialProps (c : Client) (q : Query) :
    Except ApiError (ApiResp Post) × List ApiCall :=
  ((c.postRetrieve q.slug).map (fun resp => resp.data), [.postRetrieve q.slug])

/-- Resolver of `pages/categories.js` (`getInitialProps`): `butter.category.list()`,
returning `resp.data`. -/
def categories_getInitialProps (c : Client) (_q : Query) :
    Except ApiError (ApiResp (List Category)) × List ApiCall :=
  ((c.categoryList none).map (fun resp => resp.data), [.categoryList none])

/-- Resolver of `pages/category.js` (`getInitialProps`):
`butter.category.retrieve(query.slug, {include: 'recent_posts'})`,
returning `resp.data`. -/
def category_getInitialProps (c : Client) (q : Query) :
    Except ApiError (ApiResp CategoryObj) × List ApiCall :=
  ((c.categoryRetrieve q.slug (some "recent_posts")).map (fun resp => resp.data),
   [.categoryRetrieve q.slug (some "recent_posts")])

/-- Resolver of `pages/product.js` (`getInitialProps`):
`butter.page.retrieve('product', query.slug)`, returning `resp.data`. -/
def product_getInitialProps (c : Client) (q : Query) :
    Except ApiError (ApiResp Product) × List ApiCall :=
  ((c.pageRetrieve "product" q.slug).map (fun resp => resp.data),
   [.pageRetrieve "product" q.slug])

/-- Resolver of `pages/products.js` (`getInitialProps`): `butter.page.list('product')`,
returning `resp.data`. -/
def products_getInitialProps (c : Client) (_q : Query) :
    Except ApiError (ApiResp (List Product)) × List ApiCall :=
  ((c.pageList "product" none).map (fun resp => resp.data),
   [.pageList "product" none])

/-! Page render functions -/

/-- A `next/link` `<Link href=..><a>txt</a></Link>`. -/
def navLink (href txt : String) : Html :=
  .elem "Link" [("href", href)] [.elem "a" [] [.text txt]]

/-- JSX `{v && f(v)}` for a number-or-null `v`: `null`/`undefined` renders
nothing, the falsy number `0` renders as the text `"0"`, and a truthy number
renders `f v`. -/
def jsNumCond (v : Option Nat) (f : Nat → Html) : List Html :=
  match v with
  | none => []
  | some n => if n = 0 then [Html.text "0"] else [f n]

/-- JS truthiness of a number-or-null value. -/
def truthyNum : Option Nat → Bool
  | none => false
  | some n => n != 0

/-- One post entry of the index page's list. -/
def indexPostItem (post : PostSummary) : Html :=
  .elem "div" [] [.elem "a" [("href", "/post/" ++ post.slug)] [.text post.title]]

/-- Template of `pages/index.js` (`render()`): the post list, a `<br>`, and the
conditional Prev/Next pagination links. -/
def index_render (props : IndexData) : Html :=
  .elem "div" []
    (props.data.map indexPostItem
     ++ [.elem "br" [] []]
     ++ [.elem "div" []
          (jsNumCond props.meta.previous_page
             (fun n => navLink ("/?page=" ++ toString n) "Prev")
           ++ jsNumCond props.meta.next_page
             (fun n => navLink ("/?page=" ++ toString n) "Next"))])

/-- Template of `pages/post.js` (final version of the tutorial, with the SEO
`<Head>`): title heading plus the post body inserted unescaped via
`dangerouslySetInnerHTML`. -/
def post_render (props : ApiResp Post) : Html :=
  let post := props.data
  .elem "div" []
    [.elem "Head" []
       [.elem "title" [] [.text post.seo_title],
        .elem "meta" [("name", "description"), ("content", post.meta_description)] [],
        .elem "meta" [("name", "og:image"), ("content", post.featured_image)] []],
     .elem "h1" [] [.text post.title],
     .elem "div" [] [.raw post.body]]

/-- One category entry of the categories page's list. -/
def categoryItem (category : Category) : Html :=
  .elem "div" []
    [.elem "a" [("href", "/posts/category/" ++ category.slug)] [.text category.name]]

/-- Template of `pages/categories.js` (`render()`): one `<div><a href=/posts/category/slug>name</a></div>` per category. -/
def categories_render (props : ApiResp (List Category)) : Html :=
  .elem "div" [] (props.data.map categoryItem)

/-- The tree `pages/category.js` `render()` produces when `recent_posts` is
an array: head title, heading, and one post link per recent post. -/
def categoryPage (name : String) (posts : List PostSummary) : Html :=
  .elem "div" []
    [.elem "Head" [] [.elem "title" [] [.text name]],
     .elem "h1" [] [.text name],
     .elem "div" []
       (posts.map fun post =>
         .elem "div" []
           [.elem "a" [("href", "/posts/" ++ post.slug)] [.text post.title]])]

/-- Template of `pages/category.js` (`render()`): reads `this.props.data.recent_posts` and
calls `.map` on it unconditionally; when that field is `undefined` or not an
array the call throws a `TypeError` instead of rendering, otherwise the
result is `categoryPage`. -/
def category_render (props : ApiResp CategoryObj) : Except JsError Html :=
  let category := props.data
  match category.recent_posts with
  | .array posts => .ok (categoryPage category.name posts)
  | _ => .error .typeError

/-- Template of `pages/product.js` (`render()`): title, description inserted unescaped,
and price. -/
def product_render (props : ApiResp Product) : Html :=
  let product := props.data
  .elem "div" []
    [.elem "Head" [] [.elem "title" [] [.text product.fields.title]],
     .elem "h1" [] [.text product.fields.title],
     .elem "div" [] [.raw product.fields.description],
     .elem "span" [] [.elem "strong" [] [.text "Price : "], .text product.fields.price]]

/-- One product entry of the products page's list; note the link target is
`/product/<slug>` (singular). -/
def productItem (product : Product) : Html :=
  .elem "div" []
    [.elem "a" [("href", "/product/" ++ product.slug)] [.text product.fields.title]]

/-- Template of `pages/products.js` (`render()`): one `<div><a href=/product/slug>title</a></div>` per product. -/
def products_render (props : ApiResp (List Product)) : Html :=
  .elem "div" [] (props.data.map productItem)

/-! The custom server (`server.js`) -/

/-- HTTP method. -/
inductive Method where
  | GET
  | POST
deriving DecidableEq

/-- What the Express route table decides for a request: render a named Next
page with a query, serve a feed, run the webhook handler, or fall through to
the `server.get('*')` default Next handler. -/
inductive Dispatch where
  | renderPage (page : String) (q : Query)
  | feed (kind : String)
  | webhook
  | fallback

/-- The `server.js` route table, matched against the path split into
segments, in registration order.  Note: `/posts/:slug` is registered before
`/posts/categories`, so the latter is shadowed, exactly as in the source. -/
def matchRoute : Method → List String → Dispatch
  | .GET, ["posts"] => .renderPage "/index" { slug := none }
  | .GET, ["posts", slug] => .renderPage "/post" { slug := some slug }
  | .GET, ["posts", "category", slug] => .renderPage "/category" { slug := some slug }
  | .GET, ["products", slug] => .renderPage "/product" { slug := some slug }
  | .GET, ["sitemap"] => .feed "sitemap"
  | .GET, ["atom"] => .feed "atom"
  | .GET, ["rss"] => .feed "rss"
  | .POST, ["webhook-receiver"] => .webhook
  | _, _ => .fallback

/-- An HTTP response: status code and body. -/
structure Response where
  status : Nat
  body : String
deriving DecidableEq

/-- The feed proxy handler body shared by the three feed routes:
`butter.feed.retrieve(kind).then(s => res.send(s.data.data))`.  No rejection
handler is attached, so on rejection no response is produced (`none`). -/
def feedHandler (c : Client) (kind : String) : Option Response × List ApiCall :=
  match c.feedRetrieve kind with
  | .ok s => (some { status := 200, body := s.data.data }, [.feedRetrieve kind])
  | .error _ => (none, [.feedRetrieve kind])

/-- Route `server.get('/sitemap', ...)`. -/
def sitemapRoute (c : Client) : Option Response × List ApiCall :=
  feedHandler c "sitemap"

/-- Route `server.get('/atom', ...)`. -/
def atomRoute (c : Client) : Option Response × List ApiCall :=
  feedHandler c "atom"

/-- Route `server.get('/rss', ...)`. -/
def rssRoute (c : Client) : Option Response × List ApiCall :=
  feedHandler c "rss"

/-- Effects on the Next app object. -/
inductive AppEffect where
  | prepareApp
deriving DecidableEq

/-- Route `server.post('/webhook-receiver', ...)`: call `app.prepare()`; on
resolution respond `res.end()` (Express default status 200, empty body), on
rejection respond `res.status(500).end()`. -/
def webhookRoute (prep : Except Unit Unit) : Response × List AppEffect :=
  match prep with
  | .ok _ => ({ status := 200, body := "" }, [.prepareApp])
  | .error _ => ({ status := 500, body := "" }, [.prepareApp])

/-! The Next render pipeline for the named pages -/

/-- Outcome of rendering a named page: HTML, an uncaught API rejection from
`getInitialProps`, a runtime throw inside `render()`, or an unknown page
name. -/
inductive PageResult where
  | html (h : Html)
  | apiReject (e : ApiError)
  | renderThrow (e : JsError)
  | noSuchPage

/-- Pipeline `app.render(req, res, page, query)` for the six page modules: run the
page's `getInitialProps`, and on resolution feed the returned props to the
page's `render()`. -/
def appRender (c : Client) (page : String) (q : Query) : PageResult × List ApiCall :=
  match page with
  | "/index" =>
      match index_getInitialProps c q with
      | (.ok props, tr) => (.html (index_render props), tr)
      | (.error e, tr) => (.apiReject e, tr)
  | "/post" =>
      match post_getInitialProps c q with
      | (.ok props, tr) => (.html (post_render props), tr)
      | (.error e, tr) => (.apiReject e, tr)
  | "/categories" =>
      match categories_getInitialProps c q with
      | (.ok props, tr) => (.html (categories_render props), tr)
      | (.error e, tr) => (.apiReject e, tr)
  | "/category" =>
      match category_getInitialProps c q with
      | (.ok props, tr) =>
          (match category_render props with
           | .ok h => (.html h, tr)
           | .error e => (.renderThrow e, tr))
      | (.error e, tr) => (.apiReject e, tr)
  | "/product" =>
      match product_getInitialProps c q with
      | (.ok props, tr) => (.html (product_render props), tr)
      | (.error e, tr) => (.apiReject e, tr)
  | "/products" =>
      match products_getInitialProps c q with
      | (.ok props, tr) => (.html (products_render props), tr)
      | (.error e, tr) => (.apiReject e, tr)
  | _ => (.noSuchPage, [])

/-! Helper lemmas -/

theorem anyList_append (p : Html → Bool) (xs ys : List Html) :
    Html.anyList p (xs ++ ys) = (Html.anyList p xs || Html.anyList p ys) := by
  induction xs with
  | nil => simp [Html.anyList]
  | cons h t ih => simp [Html.anyList, ih, Bool.or_assoc]

theorem anyList_map_postItems (txt : String) (l : List PostSummary) :
    Html.anyList (isLinkTo txt) (l.map indexPostItem) = false := by
  induction l with
  | nil => rfl
  | cons p t ih => simp [Html.anyList, ih, Html.any, isLinkTo, isLinkBody, indexPostItem]

theorem anyList_jsNumCond_link (v : Option Nat) (pre txt : String) :
    Html.anyList (isLinkTo txt) (jsNumCond v (fun n => navLink (pre ++ toString n) txt))
      = truthyNum v := by
  cases v with
  | none => rfl
  | some n =>
    by_cases hn : n = 0 <;>
      simp [jsNumCond, hn, truthyNum, Html.anyList, Html.any, isLinkTo, isLinkBody, navLink]

theorem anyList_jsNumCond_other (v : Option Nat) (pre txt txt' : String) (hne : txt' ≠ txt) :
    Html.anyList (isLinkTo txt) (jsNumCond v (fun n => navLink (pre ++ toString n) txt'))
      = false := by
  cases v with
  | none => rfl
  | some n =>
    by_cases hn : n = 0 <;>
      simp [jsNumCond, hn, Html.anyList, Html.any, isLinkTo, isLinkBody, navLink,
        beq_eq_false_iff_ne, hne]

theorem anyList_jsNumCond_href (n : Nat) (hn : n ≠ 0) (pre txt : String) :
    Html.anyList (isLinkHrefTo (pre ++ toString n) txt)
      (jsNumCond (some n) (fun m => navLink (pre ++ toString m) txt)) = true := by
  simp [jsNumCond, hn, Html.anyList, Html.any, isLinkHrefTo, isLinkBody, navLink]

/-! Claims -/

/-- Claim C1: for every post-list response rendered by the index page, a Prev link
is rendered iff `previous_page` is truthy and a Next link iff `next_page` is
truthy; a truthy indicator `n` yields a link targeting `/?page=n`, and a
null/absent indicator leaves the corresponding link entirely absent from the
output. -/
theorem c1_pagination_links (props : IndexData) :
    (Html.any (isLinkTo "Prev") (index_render props)
        = truthyNum props.meta.previous_page) ∧
    (Html.any (isLinkTo "Next") (index_render props)
        = truthyNum props.meta.next_page) ∧
    (∀ n : Nat, props.meta.previous_page = some n → n ≠ 0 →
      Html.any (isLinkHrefTo ("/?page=" ++ toString n) "Prev") (index_render props)
        = true) ∧
    (∀ n : Nat, props.meta.next_page = some n → n ≠ 0 →
      Html.any (isLinkHrefTo ("/?page=" ++ toString n) "Next") (index_render props)
        = true) := by
  refine ⟨?_, ?_, ?_, ?_⟩
  · simp [index_render, Html.any, anyList_append, anyList_map_postItems,
      anyList_jsNumCond_link, Html.anyList, isLinkTo, isLinkBody]
    rw [anyList_jsNumCond_other _ _ _ _ (by decide)]
    simp
  · simp [index_render, Html.any, anyList_append, anyList_jsNumCond_link,
      anyList_map_postItems, Html.anyList, isLinkTo, isLinkBody]
    rw [anyList_jsNumCond_other _ _ _ _ (by decide)]
    simp
  · intro n hsome hn
    simp [index_render, Html.any, anyList_append, Html.anyList, hsome,
      anyList_jsNumCond_href n hn]
  · intro n hsome hn
    simp [index_render, Html.any, anyList_append, Html.anyList, hsome,
      anyList_jsNumCond_href n hn]

/-- The spec's pagination example: `previous_page = null`, `next_page = 2`. -/
def sampleIndexData : IndexData :=
  { meta := { count := 12, next_page := some 2, previous_page := none },
    data := [{ slug := "first-post", title := "First Post" }] }

/-- Claim C1 witness: on the concrete response with `previous_page = null` and
`next_page = 2`, no Prev link is rendered and a Next link to `/?page=2`
is. -/
theorem c1_pagination_links_witness :
    (Html.any (isLinkTo "Prev") (index_render sampleIndexData) = false) ∧
    (Html.any (isLinkHrefTo "/?page=2" "Next") (index_render sampleIndexData) = true) := by
  constructor
  · have h := (c1_pagination_links sampleIndexData).1
    simpa [sampleIndexData, truthyNum] using h
  · exact (c1_pagination_links sampleIndexData).2.2.2 2 rfl (by decide)

/-- Claim C2: every POST to `/webhook-receiver` triggers one reinitialization of
the render pipeline; if it resolves the response is 200 (a 2xx) with empty
body, and if it rejects the response is 500 with empty body. -/
theorem c2_webhook_response (prep : Except Unit Unit) :
    ((webhookRoute prep).2 = [AppEffect.prepareApp]) ∧
    (prep = .ok () →
      (webhookRoute prep).1 = { status := 200, body := "" } ∧
        200 ≤ (webhookRoute prep).1.status ∧ (webhookRoute prep).1.status < 300) ∧
    (∀ e : Unit, prep = .error e →
      (webhookRoute prep).1 = { status := 500, body := "" }) := by
  cases prep <;> simp [webhookRoute]

/-- Claim C2 witness: at the concrete outcomes, success yields the empty 200 and
failure the empty 500. -/
theorem c2_webhook_response_witness :
    (webhookRoute (.ok ())).1 = { status := 200, body := "" } ∧
    (webhookRoute (.error ())).1 = { status := 500, body := "" } := by
  exact ⟨((c2_webhook_response (.ok ())).2.1 rfl).1,
    (c2_webhook_response (.error ())).2.2 () rfl⟩

/-! Concrete sample data used by the witnesses -/

/-- A concrete post. -/
def samplePost : Post :=
  { slug := "hello-world", title := "Hello World",
    body := "<p>Welcome to the <b>blog</b>.</p>",
    seo_title := "Hello World - Blog", meta_description := "A first post",
    featured_image := "https://example.com/img.png" }

/-- A concrete retrieved category with its `recent_posts` array present. -/
def sampleCategoryObj : CategoryObj :=
  { name := "News", recent_posts := .array [{ slug := "hello-world", title := "Hello World" }] }

/-- A concrete product page. -/
def sampleProduct : Product :=
  { slug := "wheel",
    fields := { title := "Wheel", description := "<p>Round.</p>", price := "99" } }

/-- A concrete upstream feed response (`s.data.data` is the payload). -/
def sampleFeedPayload : ApiResp (ApiResp String) :=
  { data := { data := "<rss version=\"2.0\"></rss>" } }

/-- A client whose every call resolves with fixed sample data. -/
def sampleClient : Client :=
  { postList := fun _ => .ok { data := sampleIndexData },
    postRetrieve := fun _ => .ok { data := { data := samplePost } },
    categoryList := fun _ => .ok { data := { data := [{ slug := "news", name := "News" }] } },
    categoryRetrieve := fun _ _ => .ok { data := { data := sampleCategoryObj } },
    pageRetrieve := fun _ _ => .ok { data := { data := sampleProduct } },
    pageList := fun _ _ => .ok { data := { data := [sampleProduct] } },
    feedRetrieve := fun _ => .ok sampleFeedPayload }

/-- A client whose every call rejects with a network error. -/
def failingClient : Client :=
  { postList := fun _ => .error .networkError,
    postRetrieve := fun _ => .error .networkError,
    categoryList := fun _ => .error .networkError,
    categoryRetrieve := fun _ _ => .error .networkError,
    pageRetrieve := fun _ _ => .error .networkError,
    pageList := fun _ _ => .error .networkError,
    feedRetrieve := fun _ => .error .networkError }

/-- Claim C3: each of the three feed routes performs exactly one upstream fetch of
its own feed kind, and when the fetch resolves the response is a 200 whose
body is the upstream payload `s.data.data` unchanged. -/
theorem c3_feed_passthrough (c : Client) :
    ((sitemapRoute c).2 = [ApiCall.feedRetrieve "sitemap"]) ∧
    ((atomRoute c).2 = [ApiCall.feedRetrieve "atom"]) ∧
    ((rssRoute c).2 = [ApiCall.feedRetrieve "rss"]) ∧
    (∀ s, c.feedRetrieve "sitemap" = .ok s →
      (sitemapRoute c).1 = some { status := 200, body := s.data.data }) ∧
    (∀ s, c.feedRetrieve "atom" = .ok s →
      (atomRoute c).1 = some { status := 200, body := s.data.data }) ∧
    (∀ s, c.feedRetrieve "rss" = .ok s →
      (rssRoute c).1 = some { status := 200, body := s.data.data }) := by
  refine ⟨?_, ?_, ?_, fun s h => ?_, fun s h => ?_, fun s h => ?_⟩
  · cases h : c.feedRetrieve "sitemap" <;> simp [sitemapRoute, feedHandler, h]
  · cases h : c.feedRetrieve "atom" <;> simp [atomRoute, feedHandler, h]
  · cases h : c.feedRetrieve "rss" <;> simp [rssRoute, feedHandler, h]
  · simp [sitemapRoute, feedHandler, h]
  · simp [atomRoute, feedHandler, h]
  · simp [rssRoute, feedHandler, h]

/-- Claim C3 witness: with the concrete sample client, `/rss` answers 200 with the
upstream bytes, and its trace is the single upstream fetch. -/
theorem c3_feed_passthrough_witness :
    (rssRoute sampleClient).1
      = some { status := 200, body := "<rss version=\"2.0\"></rss>" } ∧
    (rssRoute sampleClient).2 = [ApiCall.feedRetrieve "rss"] :=
  ⟨(c3_feed_passthrough sampleClient).2.2.2.2.2 sampleFeedPayload rfl,
   (c3_feed_passthrough sampleClient).2.2.1⟩

/-- Claim C4: when the upstream feed fetch rejects, none of the three feed routes
constructs any response (the rejection is unhandled), though the fetch was
still performed. -/
theorem c4_feed_unhandled_rejection (c : Client) (e : ApiError) :
    (c.feedRetrieve "sitemap" = .error e →
      (sitemapRoute c).1 = none ∧ (sitemapRoute c).2 = [ApiCall.feedRetrieve "sitemap"]) ∧
    (c.feedRetrieve "atom" = .error e →
      (atomRoute c).1 = none ∧ (atomRoute c).2 = [ApiCall.feedRetrieve "atom"]) ∧
    (c.feedRetrieve "rss" = .error e →
      (rssRoute c).1 = none ∧ (rssRoute c).2 = [ApiCall.feedRetrieve "rss"]) := by
  refine ⟨fun h => ?_, fun h => ?_, fun h => ?_⟩ <;>
    simp [sitemapRoute, atomRoute, rssRoute, feedHandler, h]

/-- Claim C4 witness: with the always-failing client, `/sitemap` produces no
response at all. -/
theorem c4_feed_unhandled_rejection_witness :
    (sitemapRoute failingClient).1 = none :=
  ((c4_feed_unhandled_rejection failingClient .networkError).1 rfl).1

/-- Claim C5: each of the six page resolvers performs exactly one external call,
returns that call's `data` field verbatim on resolution, and propagates the
rejection unchanged on rejection. -/
theorem c5_resolver_contract (c : Client) (q : Query) :
    ((index_getInitialProps c q).2
        = [ApiCall.postList { page := pageOrDefault q.page, page_size := 10 }]) ∧
    (∀ r, c.postList { page := pageOrDefault q.page, page_size := 10 } = .ok r →
      (index_getInitialProps c q).1 = .ok r.data) ∧
    (∀ e, c.postList { page := pageOrDefault q.page, page_size := 10 } = .error e →
      (index_getInitialProps c q).1 = .error e) ∧
    ((post_getInitialProps c q).2 = [ApiCall.postRetrieve q.slug]) ∧
    (∀ r, c.postRetrieve q.slug = .ok r → (post_getInitialProps c q).1 = .ok r.data) ∧
    (∀ e, c.postRetrieve q.slug = .error e → (post_getInitialProps c q).1 = .error e) ∧
    ((categories_getInitialProps c q).2 = [ApiCall.categoryList none]) ∧
    (∀ r, c.categoryList none = .ok r → (categories_getInitialProps c q).1 = .ok r.data) ∧
    (∀ e, c.categoryList none = .error e → (categories_getInitialProps c q).1 = .error e) ∧
    ((category_getInitialProps c q).2
        = [ApiCall.categoryRetrieve q.slug (some "recent_posts")]) ∧
    (∀ r, c.categoryRetrieve q.slug (some "recent_posts") = .ok r →
      (category_getInitialProps c q).1 = .ok r.data) ∧
    (∀ e, c.categoryRetrieve q.slug (some "recent_posts") = .error e →
      (category_getInitialProps c q).1 = .error e) ∧
    ((product_getInitialProps c q).2 = [ApiCall.pageRetrieve "product" q.slug]) ∧
    (∀ r, c.pageRetrieve "product" q.slug = .ok r →
      (product_getInitialProps c q).1 = .ok r.data) ∧
    (∀ e, c.pageRetrieve "product" q.slug = .error e →
      (product_getInitialProps c q).1 = .error e) ∧
    ((products_getInitialProps c q).2 = [ApiCall.pageList "product" none]) ∧
    (∀ r, c.pageList "product" none = .ok r → (products_getInitialProps c q).1 = .ok r.data) ∧
    (∀ e, c.pageList "product" none = .error e →
      (products_getInitialProps c q).1 = .error e) := by
  refine ⟨rfl, fun r h => ?_, fun e h => ?_, rfl, fun r h => ?_, fun e h => ?_,
    rfl, fun r h => ?_, fun e h => ?_, rfl, fun r h => ?_, fun e h => ?_,
    rfl, fun r h => ?_, fun e h => ?_, rfl, fun r h => ?_, fun e h => ?_⟩ <;>
  simp [index_getInitialProps, post_getInitialProps, categories_getInitialProps,
    category_getInitialProps, product_getInitialProps, products_getInitialProps,
    Except.map, h]

/-- Claim C5 witness: with the sample client and empty query the index resolver
makes the one `post.list` call and returns its `data` field; with the
failing client the post resolver propagates the network-error rejection. -/
theorem c5_resolver_contract_witness :
    (index_getInitialProps sampleClient {}).2
      = [ApiCall.postList { page := .num 1, page_size := 10 }] ∧
    (index_getInitialProps sampleClient {}).1 = .ok sampleIndexData ∧
    (post_getInitialProps failingClient {}).1 = .error .networkError :=
  ⟨(c5_resolver_contract sampleClient {}).1,
   (c5_resolver_contract sampleClient {}).2.1 { data := sampleIndexData } rfl,
   (c5_resolver_contract failingClient {}).2.2.2.2.2.1 .networkError rfl⟩

/-- Claim C6 (as amended): the post-list resolver calls `post.list` with `page`
defaulting to `1` when the query's `page` parameter is absent and with a
fixed `page_size` of 10; the category-list and product-list resolvers, by
contrast, call their list endpoints with no pagination parameters.  The
statement covers every shape of `query.page`: absent, the empty string
(falsy in JS, so it too falls back to `1`), and non-empty. -/
theorem c6_list_call_params (c : Client) (q : Query) :
    (q.page = none → (index_getInitialProps c q).2
        = [ApiCall.postList { page := .num 1, page_size := 10 }]) ∧
    (q.page = some "" → (index_getInitialProps c q).2
        = [ApiCall.postList { page := .num 1, page_size := 10 }]) ∧
    (∀ s, q.page = some s → s ≠ "" → (index_getInitialProps c q).2
        = [ApiCall.postList { page := .str s, page_size := 10 }]) ∧
    ((categories_getInitialProps c q).2 = [ApiCall.categoryList none]) ∧
    ((products_getInitialProps c q).2 = [ApiCall.pageList "product" none]) := by
  refine ⟨fun h => ?_, fun h => ?_, fun s h hs => ?_, rfl, rfl⟩
  · simp [index_getInitialProps, pageOrDefault, h]
  · simp [index_getInitialProps, pageOrDefault, h]
  · simp [index_getInitialProps, pageOrDefault, h, hs]

/-- Claim C6 counterexample to the claim as stated: at the concrete sample client
and empty query, the categories resolver's one call is `category.list()`
with no parameters — not a call carrying `page = 1` and `page_size = 10`
(nor any other paged call). -/
theorem c6_counterexample :
    (categories_getInitialProps sampleClient {}).2 = [ApiCall.categoryList none] ∧
    ApiCall.categoryList none
      ≠ ApiCall.categoryList (some { page := .num 1, page_size := 10 }) ∧
    (products_getInitialProps sampleClient {}).2 = [ApiCall.pageList "product" none] ∧
    ApiCall.pageList "product" none
      ≠ ApiCall.pageList "product" (some { page := .num 1, page_size := 10 }) :=
  ⟨rfl, by decide, rfl, by decide⟩

/-- Claim C6 witness (for the amended claim): with `page` absent — and
likewise with `page` the empty string — the index resolver calls
`post.list` with page 1 and page size 10; with `page` `"3"` it passes the
string through; and the categories resolver passes no parameters. -/
theorem c6_list_call_params_witness :
    (index_getInitialProps sampleClient {}).2
      = [ApiCall.postList { page := .num 1, page_size := 10 }] ∧
    (index_getInitialProps sampleClient { page := some "" }).2
      = [ApiCall.postList { page := .num 1, page_size := 10 }] ∧
    (index_getInitialProps sampleClient { page := some "3" }).2
      = [ApiCall.postList { page := .str "3", page_size := 10 }] ∧
    (categories_getInitialProps sampleClient {}).2 = [ApiCall.categoryList none] :=
  ⟨(c6_list_call_params sampleClient {}).1 rfl,
   (c6_list_call_params sampleClient { page := some "" }).2.1 rfl,
   (c6_list_call_params sampleClient { page := some "3" }).2.2.1 "3" rfl (by decide),
   (c6_list_call_params sampleClient {}).2.2.2.1⟩

/-- Claim C7: `GET /posts/:slug` dispatches to the `/post` page, and for a slug
the client resolves, the rendered page is the post template, whose output
contains the post's title as an `<h1>` text and the post's body as a raw
(`dangerouslySetInnerHTML`, not entity-escaped) node. -/
theorem c7_post_detail (c : Client) (slug : String) (post : Post)
    (h : c.postRetrieve (some slug) = .ok { data := { data := post } }) :
    matchRoute .GET ["posts", slug] = .renderPage "/post" { slug := some slug } ∧
    (appRender c "/post" { slug := some slug }).1
      = .html (post_render { data := post }) ∧
    Html.any (isH1Text post.title) (post_render { data := post }) = true ∧
    Html.any (isRawHtml post.body) (post_render { data := post }) = true := by
  refine ⟨by simp [matchRoute], ?_, ?_, ?_⟩
  · simp [appRender, post_getInitialProps, h, Except.map]
  · simp [post_render, Html.any, Html.anyList, isH1Text]
  · simp [post_render, Html.any, Html.anyList, isRawHtml]

/-- Claim C7 witness: with the sample client, `/posts/hello-world` renders the
post template and the output holds the title and the raw body HTML. -/
theorem c7_post_detail_witness :
    (appRender sampleClient "/post" { slug := some "hello-world" }).1
      = .html (post_render { data := samplePost }) ∧
    Html.any (isH1Text "Hello World") (post_render { data := samplePost }) = true ∧
    Html.any (isRawHtml "<p>Welcome to the <b>blog</b>.</p>")
      (post_render { data := samplePost }) = true :=
  ⟨(c7_post_detail sampleClient "hello-world" samplePost rfl).2.1,
   (c7_post_detail sampleClient "hello-world" samplePost rfl).2.2.1,
   (c7_post_detail sampleClient "hello-world" samplePost rfl).2.2.2⟩

theorem countAnchorsList_map {α : Type} (f : α → Html)
    (h1 : ∀ x, Html.countAnchors (f x) = 1) (l : List α) :
    Html.countAnchorsList (l.map f) = l.length := by
  induction l with
  | nil => rfl
  | cons x t ih => simp [Html.countAnchorsList, h1, ih, Nat.add_comm]

theorem anyList_map_of_mem {α : Type} (p : Html → Bool) (f : α → Html) (x : α)
    (l : List α) (hmem : x ∈ l) (hx : Html.any p (f x) = true) :
    Html.anyList p (l.map f) = true := by
  induction l with
  | nil => cases hmem
  | cons y t ih =>
    rcases List.mem_cons.mp hmem with hxy | hxt
    · simp [Html.anyList, hxy ▸ hx]
    · simp [Html.anyList, ih hxt]

/-- Claim C8: the categories page renders one anchor per returned category, and
for every returned category the output contains an anchor whose target is
`/posts/category/<slug>` and whose text is the category's name. -/
theorem c8_category_links (props : ApiResp (List Category)) :
    (∀ cat ∈ props.data,
      Html.any (isAnchor ("/posts/category/" ++ cat.slug) cat.name)
        (categories_render props) = true) ∧
    Html.countAnchors (categories_render props) = props.data.length := by
  constructor
  · intro cat hmem
    have hx : Html.any (isAnchor ("/posts/category/" ++ cat.slug) cat.name)
        (categoryItem cat) = true := by
      simp [Html.any, Html.anyList, isAnchor, categoryItem]
    simp [categories_render, Html.any,
      anyList_map_of_mem _ categoryItem cat props.data hmem hx]
  · simp [categories_render, Html.countAnchors,
      countAnchorsList_map categoryItem (fun x => rfl) props.data]

/-- Claim C8 witness: a concrete one-category response yields exactly one anchor,
targeting `/posts/category/news` with text `News`. -/
theorem c8_category_links_witness :
    Html.any (isAnchor "/posts/category/news" "News")
      (categories_render { data := [{ slug := "news", name := "News" }] }) = true ∧
    Html.countAnchors
      (categories_render { data := [{ slug := "news", name := "News" }] }) = 1 :=
  ⟨(c8_category_links { data := [{ slug := "news", name := "News" }] }).1
      { slug := "news", name := "News" } (List.mem_singleton.mpr rfl),
   (c8_category_links { data := [{ slug := "news", name := "News" }] }).2⟩

/-- Claim C9: the products page links every product to `/product/<slug>`
(singular), a path that matches no registered route — `GET /product/<slug>`
falls through to the default handler — while the registered product detail
route is `/products/:slug`. -/
theorem c9_product_link_mismatch (props : ApiResp (List Product)) (s : String) :
    (∀ p ∈ props.data,
      Html.any (isAnchor ("/product/" ++ p.slug) p.fields.title)
        (products_render props) = true) ∧
    matchRoute .GET ["product", s] = .fallback ∧
    matchRoute .GET ["products", s] = .renderPage "/product" { slug := some s } := by
  refine ⟨fun p hmem => ?_, by simp [matchRoute], by simp [matchRoute]⟩
  have hx : Html.any (isAnchor ("/product/" ++ p.slug) p.fields.title)
      (productItem p) = true := by
    simp [Html.any, Html.anyList, isAnchor, productItem]
  simp [products_render, Html.any,
    anyList_map_of_mem _ productItem p props.data hmem hx]

/-- Claim C9 witness: the sample product's link targets `/product/wheel`, which
the route table sends to the fallback handler, while `/products/wheel` is
the registered detail route. -/
theorem c9_product_link_mismatch_witness :
    Html.any (isAnchor "/product/wheel" "Wheel")
      (products_render { data := [sampleProduct] }) = true ∧
    matchRoute .GET ["product", "wheel"] = .fallback ∧
    matchRoute .GET ["products", "wheel"]
      = .renderPage "/product" { slug := some "wheel" } :=
  ⟨(c9_product_link_mismatch { data := [sampleProduct] } "wheel").1 sampleProduct
      (List.mem_singleton.mpr rfl),
   (c9_product_link_mismatch { data := [sampleProduct] } "wheel").2.1,
   (c9_product_link_mismatch { data := [sampleProduct] } "wheel").2.2⟩

/-- Claim C10: the category page's `render` maps over
`this.props.data.recent_posts` unconditionally: when the field is absent or
not an array, rendering throws a `TypeError` instead of producing a page
with the posts section omitted; only an array yields a page. -/
theorem c10_category_render_throws (props : ApiResp CategoryObj) :
    (props.data.recent_posts = .undefined →
      category_render props = .error .typeError) ∧
    (props.data.recent_posts = .notArray →
      category_render props = .error .typeError) ∧
    (∀ ps, props.data.recent_posts = .array ps →
      category_render props = .ok (categoryPage props.data.name ps)) := by
  refine ⟨fun h => ?_, fun h => ?_, fun ps h => ?_⟩ <;> simp [category_render, h]

/-- Claim C10 witness: a concrete retrieved category without `recent_posts`
throws, and one with the array renders. -/
theorem c10_category_render_throws_witness :
    category_render { data := { name := "News", recent_posts := .undefined } }
      = .error .typeError ∧
    category_render { data := sampleCategoryObj }
      = .ok (categoryPage "News" [{ slug := "hello-world", title := "Hello World" }]) :=
  ⟨(c10_category_render_throws
      { data := { name := "News", recent_posts := .undefined } }).1 rfl,
   (c10_category_render_throws { data := sampleCategoryObj }).2.2
      [{ slug := "hello-world", title := "Hello World" }] rfl⟩
